import Mathlib

/-!
Verification of the Tokopedia review scraper (`src/main.py`) against its
natural-language specification.

The embedding models the JSON values the script manipulates, the two pure
flatteners `parse_shop` and `parse_product`, the per-mode page loops of
`__main__`, the category drill-down loop, the post-accumulation text
normalization, and the operator-input layer.  Python's fallible dictionary /
list indexing is modelled with `Except PyErr`; an uncaught Python exception
corresponds to an `.error` result.
-/

set_option autoImplicit false

/-- JSON values as manipulated by the script.  Numbers are modelled as `Int`
(no claim depends on fractional values). -/
inductive Json where
  | null
  | bool (b : Bool)
  | str (s : String)
  | num (n : Int)
  | arr (elems : List Json)
  | obj (fields : List (String × Json))

/-- Python exception kinds that the script can raise. -/
inductive PyErr where
  | keyError
  | typeError
  | valueError
  | indexError
  | eofError

/-- Lookup of a string key in an association list (first match), as Python
dictionary lookup on parsed JSON objects. -/
def lookupStr {α : Type} : List (String × α) → String → Option α
  | [], _ => none
  | (k, v) :: fs, key => if k == key then some v else lookupStr fs key

/-- Python `j[key]`: succeeds on an object holding the key, raises `KeyError`
on an object without it, `TypeError` on any non-object (e.g. `None[key]`). -/
def getKey (j : Json) (key : String) : Except PyErr Json :=
  match j with
  | .obj fs =>
    match lookupStr fs key with
    | some v => .ok v
    | none => .error .keyError
  | _ => .error .typeError

/-- Python `j[i]` for a non-negative literal index: succeeds on a long-enough
array, raises `IndexError` on a short array, `TypeError` on a non-array. -/
def getIdx (j : Json) (i : Nat) : Except PyErr Json :=
  match j with
  | .arr xs =>
    match xs.get? i with
    | some v => .ok v
    | none => .error .indexError
  | _ => .error .typeError

/-- Requires the value to be a JSON array (Python iteration over a list);
anything else raises `TypeError`. -/
def asArr : Json → Except PyErr (List Json)
  | .arr xs => .ok xs
  | _ => .error .typeError

/-- Effectful map over a list: the model of a Python list comprehension whose
body can raise.  The first failing element aborts the whole comprehension. -/
def mapE {α β : Type} (f : α → Except PyErr β) : List α → Except PyErr (List β)
  | [] => .ok []
  | x :: xs => do
    let y ← f x
    let ys ← mapE f xs
    return y :: ys

@[simp] theorem ok_bind {α β : Type} (a : α) (f : α → Except PyErr β) :
    (Except.ok a : Except PyErr α) >>= f = f a := rfl

@[simp] theorem error_bind {α β : Type} (e : PyErr) (f : α → Except PyErr β) :
    (Except.error e : Except PyErr α) >>= f = .error e := rfl

/-- Python truthiness of a JSON value: `None`, `False`, `0`, `""`, `[]` and
`{}` are falsy, everything else truthy. -/
def pyTruthy : Json → Bool
  | .null => false
  | .bool b => b
  | .str s => !(s == "")
  | .num n => !(n == 0)
  | .arr xs => !xs.isEmpty
  | .obj fs => !fs.isEmpty

/-- The column dictionary returned by the flatteners: insertion-ordered
column name / column values pairs, as a Python `dict[str, list]`. -/
abbrev ColumnDict := List (String × List Json)

/-- Lookup of a column by name in a flattener result. -/
def lookupCol (cols : ColumnDict) (key : String) : Option (List Json) :=
  lookupStr cols key

/-- The path `data[0]["data"]["productrevGetShopReviewReadingList"]` that
`parse_shop` traverses (the source traverses it once per extracted scalar). -/
def shopResp (data : Json) : Except PyErr Json := do
  let root ← getIdx data 0
  let d ← getKey root "data"
  getKey d "productrevGetShopReviewReadingList"

/-- The raw review list of a shop response: `shopResp` followed by `["list"]`,
which must be a JSON array to be iterable. -/
def rawShopList (data : Json) : Except PyErr (List Json) := do
  let resp ← shopResp data
  asArr (← getKey resp "list")

/-- Model of `parse_shop` (src/main.py lines 77-91): flattens one shop-reviews
response into a column dictionary, broadcasting the page-level `shopName`. -/
def parse_shop (data : Json) : Except PyErr ColumnDict := do
  let review_list ← asArr (← getKey (← shopResp data) "list")
  let shop_name ← getKey (← shopResp data) "shopName"
  let ids ← mapE (fun item => getKey item "id") review_list
  let productIDs ← mapE (fun item => do getKey (← getKey item "product") "productID") review_list
  let productNames ← mapE (fun item => do getKey (← getKey item "product") "productName") review_list
  let reviewerIDs ← mapE (fun item => getKey item "reviewerID") review_list
  let reviewerNames ← mapE (fun item => getKey item "reviewerName") review_list
  let ratings ← mapE (fun item => getKey item "rating") review_list
  let reviewTexts ← mapE (fun item => getKey item "reviewText") review_list
  let replyTexts ← mapE (fun item => getKey item "replyText") review_list
  return [("id", ids), ("productID", productIDs), ("productName", productNames),
    ("reviewerID", reviewerIDs), ("reviewerName", reviewerNames), ("rating", ratings),
    ("reviewText", reviewTexts), ("replyText", replyTexts),
    ("shopName", review_list.map (fun _ => shop_name))]

/-- The path `data[0]["data"]["productrevGetProductReviewList"]` that
`parse_product` traverses (the source traverses it once per extracted scalar). -/
def prodResp (data : Json) : Except PyErr Json := do
  let root ← getIdx data 0
  let d ← getKey root "data"
  getKey d "productrevGetProductReviewList"

/-- The raw review list of a product response. -/
def rawProductList (data : Json) : Except PyErr (List Json) := do
  let resp ← prodResp data
  asArr (← getKey resp "list")

/-- The page-level `productID` scalar of a product-reviews response. -/
def prodRespID (data : Json) : Except PyErr Json := do
  let resp ← prodResp data
  getKey resp "productID"

/-- Model of `parse_product` (src/main.py lines 94-179).  The four broadcast
arguments are JSON values (Python does not enforce the annotations); the four
category-only columns are emitted exactly when all four are truthy, per the
source's `if location and price and overall and total`. -/
def parse_product (data location price overall total name : Json) :
    Except PyErr ColumnDict := do
  let review_list ← asArr (← getKey (← prodResp data) "list")
  let product_id ← getKey (← prodResp data) "productID"
  let shop_name ← getKey (← getKey (← prodResp data) "shop") "name"
  let ids ← mapE (fun item => getKey item "id") review_list
  let reviewerIDs ← mapE (fun item => do getKey (← getKey item "user") "userID") review_list
  let reviewerNames ← mapE (fun item => do getKey (← getKey item "user") "fullName") review_list
  let ratings ← mapE (fun item => getKey item "productRating") review_list
  let reviewTexts ← mapE (fun item => getKey item "message") review_list
  let replyTexts ← mapE (fun item => do getKey (← getKey item "reviewResponse") "message") review_list
  if pyTruthy location && pyTruthy price && pyTruthy overall && pyTruthy total then
    return [("id", ids), ("productID", review_list.map (fun _ => product_id)),
      ("productName", review_list.map (fun _ => name)),
      ("location", review_list.map (fun _ => location)),
      ("price", review_list.map (fun _ => price)),
      ("overall", review_list.map (fun _ => overall)),
      ("total", review_list.map (fun _ => total)),
      ("reviewerID", reviewerIDs), ("reviewerName", reviewerNames), ("rating", ratings),
      ("reviewText", reviewTexts), ("replyText", replyTexts),
      ("shopName", review_list.map (fun _ => shop_name))]
  else
    return [("id", ids), ("productID", review_list.map (fun _ => product_id)),
      ("productName", review_list.map (fun _ => name)),
      ("reviewerID", reviewerIDs), ("reviewerName", reviewerNames), ("rating", ratings),
      ("reviewText", reviewTexts), ("replyText", replyTexts),
      ("shopName", review_list.map (fun _ => shop_name))]

example : parse_shop (.arr [.obj [("data", .obj [("productrevGetShopReviewReadingList",
    .obj [("list", .arr []), ("shopName", .str "Acme")])])]]) =
    .ok [("id", []), ("productID", []), ("productName", []), ("reviewerID", []),
      ("reviewerName", []), ("rating", []), ("reviewText", []), ("replyText", []),
      ("shopName", [])] := rfl

example : parse_shop (.arr [.obj [("data", .obj [])]]) = .error .keyError := rfl

theorem bind_ok_iff {α β : Type} {x : Except PyErr α} {f : α → Except PyErr β} {b : β} :
    (x >>= f) = .ok b ↔ ∃ a, x = .ok a ∧ f a = .ok b := by
  cases x <;> simp

@[simp] theorem pure_eq_ok {α : Type} (a : α) : (pure a : Except PyErr α) = .ok a := rfl

theorem asArr_ok {j : Json} {xs : List Json} (h : asArr j = .ok xs) : j = .arr xs := by
  cases j <;> simp_all [asArr]

theorem mapE_length {α β : Type} {f : α → Except PyErr β} :
    ∀ {xs : List α} {ys : List β}, mapE f xs = .ok ys → ys.length = xs.length := by
  intro xs
  induction xs with
  | nil => intro ys h; simp [mapE] at h; simp [← h]
  | cons x xs ih =>
    intro ys h
    simp only [mapE, bind_ok_iff] at h
    obtain ⟨y, _, ys2, h2, h3⟩ := h
    simp only [pure_eq_ok, Except.ok.injEq] at h3
    subst h3
    simp [ih h2]

/-- Inversion of a successful `parse_shop` run: exposes the response pieces
and the exact column dictionary produced. -/
theorem parse_shop_ok {data : Json} {cols : ColumnDict} (h : parse_shop data = .ok cols) :
    ∃ resp xs shop_name ids pids pnames rids rnames rats rtxts reptxts,
      shopResp data = .ok resp ∧
      getKey resp "list" = .ok (.arr xs) ∧
      getKey resp "shopName" = .ok shop_name ∧
      mapE (fun item => getKey item "id") xs = .ok ids ∧
      mapE (fun item => do getKey (← getKey item "product") "productID") xs = .ok pids ∧
      mapE (fun item => do getKey (← getKey item "product") "productName") xs = .ok pnames ∧
      mapE (fun item => getKey item "reviewerID") xs = .ok rids ∧
      mapE (fun item => getKey item "reviewerName") xs = .ok rnames ∧
      mapE (fun item => getKey item "rating") xs = .ok rats ∧
      mapE (fun item => getKey item "reviewText") xs = .ok rtxts ∧
      mapE (fun item => getKey item "replyText") xs = .ok reptxts ∧
      cols = [("id", ids), ("productID", pids), ("productName", pnames),
        ("reviewerID", rids), ("reviewerName", rnames), ("rating", rats),
        ("reviewText", rtxts), ("replyText", reptxts),
        ("shopName", xs.map (fun _ => shop_name))] := by
  unfold parse_shop at h
  simp only [bind_ok_iff, pure_eq_ok, Except.ok.injEq] at h
  obtain ⟨resp, h1, lst, h2, xs, h3, resp2, h4, sn, h5, ids, h6, pids, h7, pnames, h8,
    rids, h9, rnames, h10, rats, h11, rtxts, h12, reptxts, h13, h14⟩ := h
  rw [h1, Except.ok.injEq] at h4
  subst h4
  have hlst := asArr_ok h3
  subst hlst
  exact ⟨resp, xs, sn, ids, pids, pnames, rids, rnames, rats, rtxts, reptxts,
    h1, h2, h5, h6, h7, h8, h9, h10, h11, h12, h13, h14.symm⟩

/-- Inversion of a successful `parse_product` run: exposes the response
pieces and the exact column dictionary produced, as a disjunction on the
truthiness test over the four broadcast arguments. -/
theorem parse_product_ok {data location price overall total name : Json} {cols : ColumnDict}
    (h : parse_product data location price overall total name = .ok cols) :
    ∃ resp xs product_id shopObj shop_name ids rids rnames rats rtxts reptxts,
      prodResp data = .ok resp ∧
      getKey resp "list" = .ok (.arr xs) ∧
      getKey resp "productID" = .ok product_id ∧
      getKey resp "shop" = .ok shopObj ∧
      getKey shopObj "name" = .ok shop_name ∧
      mapE (fun item => getKey item "id") xs = .ok ids ∧
      mapE (fun item => do getKey (← getKey item "user") "userID") xs = .ok rids ∧
      mapE (fun item => do getKey (← getKey item "user") "fullName") xs = .ok rnames ∧
      mapE (fun item => getKey item "productRating") xs = .ok rats ∧
      mapE (fun item => getKey item "message") xs = .ok rtxts ∧
      mapE (fun item => do getKey (← getKey item "reviewResponse") "message") xs = .ok reptxts ∧
      (((pyTruthy location && pyTruthy price && pyTruthy overall && pyTruthy total) = true ∧
          cols = [("id", ids), ("productID", xs.map (fun _ => product_id)),
            ("productName", xs.map (fun _ => name)),
            ("location", xs.map (fun _ => location)),
            ("price", xs.map (fun _ => price)),
            ("overall", xs.map (fun _ => overall)),
            ("total", xs.map (fun _ => total)),
            ("reviewerID", rids), ("reviewerName", rnames), ("rating", rats),
            ("reviewText", rtxts), ("replyText", reptxts),
            ("shopName", xs.map (fun _ => shop_name))]) ∨
        ((pyTruthy location && pyTruthy price && pyTruthy overall && pyTruthy total) = false ∧
          cols = [("id", ids), ("productID", xs.map (fun _ => product_id)),
            ("productName", xs.map (fun _ => name)),
            ("reviewerID", rids), ("reviewerName", rnames), ("rating", rats),
            ("reviewText", rtxts), ("replyText", reptxts),
            ("shopName", xs.map (fun _ => shop_name))])) := by
  unfold parse_product at h
  simp only [bind_ok_iff, pure_eq_ok, Except.ok.injEq] at h
  obtain ⟨resp, h1, lst, h2, xs, h3, resp2, h4, pid, h5, resp3, h6, shopObj, h7, sn, h8,
    ids, h9, rids, h10, rnames, h11, rats, h12, rtxts, h13, reptxts, h14, h15⟩ := h
  rw [h1, Except.ok.injEq] at h4
  subst h4
  rw [h1, Except.ok.injEq] at h6
  subst h6
  have hlst := asArr_ok h3
  subst hlst
  refine ⟨resp, xs, pid, shopObj, sn, ids, rids, rnames, rats, rtxts, reptxts,
    h1, h2, h5, h7, h8, h9, h10, h11, h12, h13, h14, ?_⟩
  by_cases hc : (pyTruthy location && pyTruthy price && pyTruthy overall && pyTruthy total) = true
  · rw [if_pos hc] at h15
    simp only [pure_eq_ok, Except.ok.injEq] at h15
    exact Or.inl ⟨hc, h15.symm⟩
  · rw [if_neg hc] at h15
    simp only [pure_eq_ok, Except.ok.injEq] at h15
    exact Or.inr ⟨Bool.not_eq_true _ ▸ hc, h15.symm⟩

/-- A column all of whose entries are the same value (a broadcast column). -/
def constCol (l : List Json) : Prop := ∀ a ∈ l, ∀ b ∈ l, a = b

theorem constCol_map_const (xs : List Json) (c : Json) :
    constCol (xs.map (fun _ => c)) := by
  intro a ha b hb
  rcases List.mem_map.1 ha with ⟨x, _, rfl⟩
  rcases List.mem_map.1 hb with ⟨y, _, rfl⟩
  rfl

theorem constCol_replicate (n : Nat) (c : Json) : constCol (List.replicate n c) := by
  intro a ha b hb
  rw [List.eq_of_mem_replicate ha, List.eq_of_mem_replicate hb]

/-- Sample shop review item (seller replied). -/
def shopItem1 : Json := .obj [("id", .str "r1"),
  ("product", .obj [("productID", .str "p1"), ("productName", .str "P1")]),
  ("reviewerID", .str "u1"), ("reviewerName", .str "A"), ("rating", .num 5),
  ("reviewText", .str "good"), ("replyText", .str "thanks")]

/-- Sample shop review item (no seller reply: `replyText` is null). -/
def shopItem2 : Json := .obj [("id", .str "r2"),
  ("product", .obj [("productID", .str "p2"), ("productName", .str "P2")]),
  ("reviewerID", .str "u2"), ("reviewerName", .str "B"), ("rating", .num 4),
  ("reviewText", .str "bad"), ("replyText", .null)]

/-- Sample shop-reviews response with two items and shop name "Acme". -/
def sampleShopPage : Json := .arr [.obj [("data", .obj
  [("productrevGetShopReviewReadingList", .obj
    [("list", .arr [shopItem1, shopItem2]), ("shopName", .str "Acme")])])]]

/-- The column dictionary `parse_shop` produces on `sampleShopPage`. -/
def sampleShopCols : ColumnDict :=
  [("id", [.str "r1", .str "r2"]), ("productID", [.str "p1", .str "p2"]),
   ("productName", [.str "P1", .str "P2"]), ("reviewerID", [.str "u1", .str "u2"]),
   ("reviewerName", [.str "A", .str "B"]), ("rating", [.num 5, .num 4]),
   ("reviewText", [.str "good", .str "bad"]), ("replyText", [.str "thanks", .null]),
   ("shopName", [.str "Acme", .str "Acme"])]

example : parse_shop sampleShopPage = .ok sampleShopCols := rfl

/-- Sample product review item whose seller reply message is null. -/
def sampleProductItem : Json := .obj [("id", .str "f1"),
  ("user", .obj [("userID", .str "u9"), ("fullName", .str "Z")]),
  ("productRating", .num 5), ("message", .str "mantap"),
  ("reviewResponse", .obj [("message", .null)])]

/-- Sample product-reviews response with one item. -/
def sampleProductPage : Json := .arr [.obj [("data", .obj
  [("productrevGetProductReviewList", .obj
    [("productID", .str "p9"), ("list", .arr [sampleProductItem]),
     ("shop", .obj [("shopID", .str "s9"), ("name", .str "Toko")])])])]]

/-- The 13-column dictionary `parse_product` produces on `sampleProductPage`
with all four broadcast arguments truthy. -/
def sampleProductCols13 : ColumnDict :=
  [("id", [.str "f1"]), ("productID", [.str "p9"]), ("productName", [.str "Prod"]),
   ("location", [.str "Jakarta"]), ("price", [.num 1000]), ("overall", [.num 5]),
   ("total", [.num 7]), ("reviewerID", [.str "u9"]), ("reviewerName", [.str "Z"]),
   ("rating", [.num 5]), ("reviewText", [.str "mantap"]), ("replyText", [.null]),
   ("shopName", [.str "Toko"])]

example : parse_product sampleProductPage (.str "Jakarta") (.num 1000) (.num 5)
    (.num 7) (.str "Prod") = .ok sampleProductCols13 := rfl

/-- The 9-column dictionary `parse_product` produces on `sampleProductPage`
when one broadcast argument is falsy (here `location = ""`). -/
def sampleProductCols9 : ColumnDict :=
  [("id", [.str "f1"]), ("productID", [.str "p9"]), ("productName", [.str "Prod"]),
   ("reviewerID", [.str "u9"]), ("reviewerName", [.str "Z"]),
   ("rating", [.num 5]), ("reviewText", [.str "mantap"]), ("replyText", [.null]),
   ("shopName", [.str "Toko"])]

example : parse_product sampleProductPage (.str "") (.num 1000) (.num 5)
    (.num 7) (.str "Prod") = .ok sampleProductCols9 := rfl

/-- Claim C1 — cardinality preservation: whenever a raw response's review
list holds `n` items and the flattener (`parse_shop` for shop reviews,
`parse_product` for product reviews) succeeds, every list in the returned
column dictionary has length exactly `n`. -/
theorem c1_cardinality_preservation :
    (∀ (data : Json) (xs : List Json) (cols : ColumnDict),
      rawShopList data = .ok xs → parse_shop data = .ok cols →
      ∀ p ∈ cols, p.2.length = xs.length) ∧
    (∀ (data location price overall total name : Json) (xs : List Json) (cols : ColumnDict),
      rawProductList data = .ok xs →
      parse_product data location price overall total name = .ok cols →
      ∀ p ∈ cols, p.2.length = xs.length) := by
  constructor
  · intro data xs cols hraw h p hp
    obtain ⟨resp, ys, sn, ids, pids, pnames, rids, rnames, rats, rtxts, reptxts,
      h1, h2, h5, h6, h7, h8, h9, h10, h11, h12, h13, h14⟩ := parse_shop_ok h
    unfold rawShopList at hraw
    rw [h1] at hraw
    simp only [ok_bind, bind_ok_iff] at hraw
    obtain ⟨lst, hlst, harr⟩ := hraw
    rw [h2, Except.ok.injEq] at hlst
    subst hlst
    have hys := asArr_ok harr
    cases hys
    subst h14
    simp only [List.mem_cons, List.not_mem_nil, or_false] at hp
    rcases hp with rfl | rfl | rfl | rfl | rfl | rfl | rfl | rfl | rfl
    · exact mapE_length h6
    · exact mapE_length h7
    · exact mapE_length h8
    · exact mapE_length h9
    · exact mapE_length h10
    · exact mapE_length h11
    · exact mapE_length h12
    · exact mapE_length h13
    · exact List.length_map _ _
  · intro data location price overall total name xs cols hraw h p hp
    obtain ⟨resp, ys, pid, shopObj, sn, ids, rids, rnames, rats, rtxts, reptxts,
      h1, h2, h5, h7, h8, h9, h10, h11, h12, h13, h14, hbr⟩ := parse_product_ok h
    unfold rawProductList at hraw
    rw [h1] at hraw
    simp only [ok_bind, bind_ok_iff] at hraw
    obtain ⟨lst, hlst, harr⟩ := hraw
    rw [h2, Except.ok.injEq] at hlst
    subst hlst
    have hys := asArr_ok harr
    cases hys
    rcases hbr with ⟨_, rfl⟩ | ⟨_, rfl⟩ <;>
      simp only [List.mem_cons, List.not_mem_nil, or_false] at hp
    · rcases hp with rfl | rfl | rfl | rfl | rfl | rfl | rfl | rfl | rfl | rfl | rfl | rfl | rfl
      · exact mapE_length h9
      · exact List.length_map _ _
      · exact List.length_map _ _
      · exact List.length_map _ _
      · exact List.length_map _ _
      · exact List.length_map _ _
      · exact List.length_map _ _
      · exact mapE_length h10
      · exact mapE_length h11
      · exact mapE_length h12
      · exact mapE_length h13
      · exact mapE_length h14
      · exact List.length_map _ _
    · rcases hp with rfl | rfl | rfl | rfl | rfl | rfl | rfl | rfl | rfl
      · exact mapE_length h9
      · exact List.length_map _ _
      · exact List.length_map _ _
      · exact mapE_length h10
      · exact mapE_length h11
      · exact mapE_length h12
      · exact mapE_length h13
      · exact mapE_length h14
      · exact List.length_map _ _

/-- Witness for C1 at the two sample pages: the "id" column of the two-item
shop page has length 2, and the "id" column of the one-item product page has
length 1. -/
theorem c1_cardinality_preservation_witness :
    (("id", [Json.str "r1", Json.str "r2"]) : String × List Json).2.length =
      ([shopItem1, shopItem2] : List Json).length ∧
    (("id", [Json.str "f1"]) : String × List Json).2.length =
      ([sampleProductItem] : List Json).length :=
  ⟨c1_cardinality_preservation.1 sampleShopPage [shopItem1, shopItem2] sampleShopCols
      rfl rfl _ (List.mem_cons_self _ _),
    c1_cardinality_preservation.2 sampleProductPage (.str "Jakarta") (.num 1000) (.num 5)
      (.num 7) (.str "Prod") [sampleProductItem] sampleProductCols13
      rfl rfl _ (List.mem_cons_self _ _)⟩

/-- Claim C2 — broadcast invariance: all records of one flatten call carry
identical page-level scalars.  For `parse_shop` the "shopName" column is
constant; for `parse_product` the "shopName", "productID" and "productName"
columns are constant, and so are the category-mode "location", "price",
"overall" and "total" columns whenever they are present. -/
theorem c2_broadcast_invariance :
    (∀ (data : Json) (cols : ColumnDict) (l : List Json),
      parse_shop data = .ok cols → lookupCol cols "shopName" = some l → constCol l) ∧
    (∀ (data location price overall total name : Json) (cols : ColumnDict)
      (k : String) (l : List Json),
      parse_product data location price overall total name = .ok cols →
      (k = "shopName" ∨ k = "productID" ∨ k = "productName" ∨ k = "location" ∨
        k = "price" ∨ k = "overall" ∨ k = "total") →
      lookupCol cols k = some l → constCol l) := by
  constructor
  · intro data cols l h hl
    obtain ⟨resp, ys, sn, ids, pids, pnames, rids, rnames, rats, rtxts, reptxts,
      _, _, _, _, _, _, _, _, _, _, _, h14⟩ := parse_shop_ok h
    subst h14
    simp [lookupCol, lookupStr] at hl
    subst hl
    exact constCol_replicate _ _
  · intro data location price overall total name cols k l h hk hl
    obtain ⟨resp, ys, pid, shopObj, sn, ids, rids, rnames, rats, rtxts, reptxts,
      _, _, _, _, _, _, _, _, _, _, _, hbr⟩ := parse_product_ok h
    rcases hbr with ⟨_, rfl⟩ | ⟨_, rfl⟩ <;>
      rcases hk with rfl | rfl | rfl | rfl | rfl | rfl | rfl <;>
      simp [lookupCol, lookupStr] at hl <;>
      (subst hl; exact constCol_replicate _ _)

/-- Witness for C2 at the sample pages: the broadcast "shopName" column of
the two-record shop page is constant, and the "location" column of the
category-mode product page is constant. -/
theorem c2_broadcast_invariance_witness :
    constCol [Json.str "Acme", Json.str "Acme"] ∧ constCol [Json.str "Jakarta"] :=
  ⟨c2_broadcast_invariance.1 sampleShopPage sampleShopCols _ rfl rfl,
    c2_broadcast_invariance.2 sampleProductPage (.str "Jakarta") (.num 1000) (.num 5)
      (.num 7) (.str "Prod") sampleProductCols13 "location" _ rfl (Or.inr (Or.inr (Or.inr (Or.inl rfl)))) rfl⟩

/-- Claim C6 — schema mismatch vs. empty page: a response whose envelope is
intact but lacks the expected top-level resource key makes both flatteners
signal an error (`KeyError`, the script's schema-mismatch signal), while a
response whose review list is present but empty is valid and yields a column
dictionary all of whose columns are empty (zero records). -/
theorem c6_schema_mismatch_vs_empty :
    (∀ (data root d : Json), getIdx data 0 = .ok root → getKey root "data" = .ok d →
      getKey d "productrevGetShopReviewReadingList" = .error .keyError →
      parse_shop data = .error .keyError) ∧
    (∀ (data root d location price overall total name : Json),
      getIdx data 0 = .ok root → getKey root "data" = .ok d →
      getKey d "productrevGetProductReviewList" = .error .keyError →
      parse_product data location price overall total name = .error .keyError) ∧
    (∀ (data resp sn : Json), shopResp data = .ok resp →
      getKey resp "list" = .ok (.arr []) → getKey resp "shopName" = .ok sn →
      parse_shop data = .ok [("id", []), ("productID", []), ("productName", []),
        ("reviewerID", []), ("reviewerName", []), ("rating", []),
        ("reviewText", []), ("replyText", []), ("shopName", [])]) ∧
    (∀ (data resp pid shopObj sn location price overall total name : Json),
      prodResp data = .ok resp →
      getKey resp "list" = .ok (.arr []) → getKey resp "productID" = .ok pid →
      getKey resp "shop" = .ok shopObj → getKey shopObj "name" = .ok sn →
      ∃ cols, parse_product data location price overall total name = .ok cols ∧
        ∀ p ∈ cols, p.2 = []) := by
  refine ⟨?_, ?_, ?_, ?_⟩
  · intro data root d h1 h2 h3
    have hresp : shopResp data = .error .keyError := by
      unfold shopResp
      rw [h1]
      simp only [ok_bind]
      rw [h2]
      simp only [ok_bind, h3]
    unfold parse_shop
    rw [hresp]
    rfl
  · intro data root d location price overall total name h1 h2 h3
    have hresp : prodResp data = .error .keyError := by
      unfold prodResp
      rw [h1]
      simp only [ok_bind]
      rw [h2]
      simp only [ok_bind, h3]
    unfold parse_product
    rw [hresp]
    rfl
  · intro data resp sn h1 h2 h3
    unfold parse_shop
    rw [h1]
    simp only [ok_bind]
    rw [h2]
    simp [asArr, mapE, h3]
  · intro data resp pid shopObj sn location price overall total name h1 h2 h3 h4 h5
    by_cases hc : (pyTruthy location && pyTruthy price && pyTruthy overall &&
        pyTruthy total) = true
    · refine ⟨[("id", []), ("productID", []), ("productName", []), ("location", []),
        ("price", []), ("overall", []), ("total", []), ("reviewerID", []),
        ("reviewerName", []), ("rating", []), ("reviewText", []), ("replyText", []),
        ("shopName", [])], ?_, by simp⟩
      unfold parse_product
      rw [h1]
      simp only [ok_bind]
      rw [h2]
      simp only [ok_bind]
      simp [asArr, mapE, h3, h4, h5, hc]
    · refine ⟨[("id", []), ("productID", []), ("productName", []), ("reviewerID", []),
        ("reviewerName", []), ("rating", []), ("reviewText", []), ("replyText", []),
        ("shopName", [])], ?_, by simp⟩
      unfold parse_product
      rw [h1]
      simp only [ok_bind]
      rw [h2]
      simp only [ok_bind]
      simp [asArr, mapE, h3, h4, h5, hc]

/-- Response whose envelope is fine but whose "data" object lacks the
expected resource key (a schema mismatch / invalid identifier). -/
def mismatchPage : Json := .arr [.obj [("data", .obj [("somethingElse", .null)])]]

/-- Shop response whose review list is present but empty. -/
def emptyShopPage : Json := .arr [.obj [("data", .obj
  [("productrevGetShopReviewReadingList", .obj
    [("list", .arr []), ("shopName", .str "Acme")])])]]

/-- Product response whose review list is present but empty. -/
def emptyProductPage : Json := .arr [.obj [("data", .obj
  [("productrevGetProductReviewList", .obj
    [("productID", .str "p0"), ("list", .arr []),
     ("shop", .obj [("name", .str "S")])])])]]

/-- Witness for C6: the key-less page makes both flatteners error, and the
empty pages flatten to zero records. -/
theorem c6_schema_mismatch_vs_empty_witness :
    parse_shop mismatchPage = .error .keyError ∧
    parse_product mismatchPage .null .null .null .null .null = .error .keyError ∧
    parse_shop emptyShopPage = .ok [("id", []), ("productID", []), ("productName", []),
      ("reviewerID", []), ("reviewerName", []), ("rating", []),
      ("reviewText", []), ("replyText", []), ("shopName", [])] ∧
    (∃ cols, parse_product emptyProductPage .null .null .null .null .null = .ok cols ∧
      ∀ p ∈ cols, p.2 = []) :=
  ⟨c6_schema_mismatch_vs_empty.1 mismatchPage _ _ rfl rfl rfl,
    c6_schema_mismatch_vs_empty.2.1 mismatchPage _ _ .null .null .null .null .null rfl rfl rfl,
    c6_schema_mismatch_vs_empty.2.2.1 emptyShopPage _ _ rfl rfl rfl,
    c6_schema_mismatch_vs_empty.2.2.2 emptyProductPage _ _ _ _ .null .null .null .null .null
      rfl rfl rfl rfl rfl⟩

/-- Product-reviews response whose single item carries no seller reply in the
standard GraphQL encoding: its `reviewResponse` field is null. -/
def noReplyPage : Json := .arr [.obj [("data", .obj
  [("productrevGetProductReviewList", .obj
    [("productID", .str "p1"),
     ("list", .arr [.obj [("id", .str "r1"),
       ("user", .obj [("userID", .str "u1"), ("fullName", .str "U")]),
       ("productRating", .num 5), ("message", .str "great"),
       ("reviewResponse", .null)]]),
     ("shop", .obj [("name", .str "S")])])])]]

/-- Counterexample to claim C7 as stated: on an item carrying no seller reply
(`reviewResponse` null), `parse_product` does not produce a record with
`replyText = null` — the subscript `item["reviewResponse"]["message"]`
raises a `TypeError` and flattening fails, yielding no records at all. -/
theorem c7_no_reply_counterexample :
    parse_product noReplyPage (.str "loc") (.num 1) (.num 4) (.num 2) (.str "P") =
      .error .typeError := rfl

/-- Claim C7 as amended: when flattening succeeds, each record's `replyText`
is exactly the raw `reviewResponse.message` value, never coerced — a null
message yields a null `replyText`, which is distinct from an empty-but-present
reply `""`; an item whose `reviewResponse` itself is null or missing instead
makes `parse_product` fail (see the counterexample). -/
theorem c7_reply_passthrough :
    ∀ (data location price overall total name item rr m : Json) (cols : ColumnDict),
      parse_product data location price overall total name = .ok cols →
      rawProductList data = .ok [item] →
      getKey item "reviewResponse" = .ok rr →
      getKey rr "message" = .ok m →
      lookupCol cols "replyText" = some [m] ∧ (Json.null : Json) ≠ .str "" := by
  intro data location price overall total name item rr m cols h hraw hrr hm
  obtain ⟨resp, ys, pid, shopObj, sn, ids, rids, rnames, rats, rtxts, reptxts,
    h1, h2, h5, h7, h8, h9, h10, h11, h12, h13, h14, hbr⟩ := parse_product_ok h
  unfold rawProductList at hraw
  rw [h1] at hraw
  simp only [ok_bind, bind_ok_iff] at hraw
  obtain ⟨lst, hlst, harr⟩ := hraw
  rw [h2, Except.ok.injEq] at hlst
  subst hlst
  have hys := asArr_ok harr
  cases hys
  have hstep : (do getKey (← getKey item "reviewResponse") "message") = Except.ok m := by
    rw [hrr]
    simp only [ok_bind, hm]
  rw [show ([item] : List Json) = [item] from rfl] at h14
  simp only [mapE, hstep, ok_bind, pure_eq_ok, Except.ok.injEq] at h14
  subst h14
  rcases hbr with ⟨_, rfl⟩ | ⟨_, rfl⟩ <;>
    exact ⟨by simp [lookupCol, lookupStr], by simp⟩

/-- Witness for the amended C7 at `sampleProductPage`, whose item's reply
message is null: the produced `replyText` column is `[null]`. -/
theorem c7_reply_passthrough_witness :
    lookupCol sampleProductCols13 "replyText" = some [.null] ∧
      (Json.null : Json) ≠ .str "" :=
  c7_reply_passthrough sampleProductPage (.str "Jakarta") (.num 1000) (.num 5)
    (.num 7) (.str "Prod") sampleProductItem (.obj [("message", .null)]) .null
    sampleProductCols13 rfl rfl rfl rfl

/-- Claim C10 — category-only columns appear iff all four broadcast values
are truthy: a successful `parse_product` includes the "location", "price",
"overall" and "total" columns exactly when `location`, `price`, `overall`
and `total` are all Python-truthy; if any one is falsy (empty location
string, zero price, zero aggregate rating, zero review count) all four
columns are silently omitted. -/
theorem c10_category_columns_iff_truthy :
    ∀ (data location price overall total name : Json) (cols : ColumnDict),
      parse_product data location price overall total name = .ok cols →
      (((lookupCol cols "location").isSome ↔ (pyTruthy location && pyTruthy price &&
          pyTruthy overall && pyTruthy total) = true) ∧
       ((lookupCol cols "price").isSome ↔ (pyTruthy location && pyTruthy price &&
          pyTruthy overall && pyTruthy total) = true) ∧
       ((lookupCol cols "overall").isSome ↔ (pyTruthy location && pyTruthy price &&
          pyTruthy overall && pyTruthy total) = true) ∧
       ((lookupCol cols "total").isSome ↔ (pyTruthy location && pyTruthy price &&
          pyTruthy overall && pyTruthy total) = true)) := by
  intro data location price overall total name cols h
  obtain ⟨resp, ys, pid, shopObj, sn, ids, rids, rnames, rats, rtxts, reptxts,
    _, _, _, _, _, _, _, _, _, _, _, hbr⟩ := parse_product_ok h
  rcases hbr with ⟨hc, rfl⟩ | ⟨hc, rfl⟩ <;>
    simp [lookupCol, lookupStr, hc]

/-- Witness for C10: with a falsy `location = ""` (and otherwise truthy
arguments) the flattened sample page omits all four category columns. -/
theorem c10_category_columns_iff_truthy_witness :
    (((lookupCol sampleProductCols9 "location").isSome ↔ (pyTruthy (.str "") &&
        pyTruthy (.num 1000) && pyTruthy (.num 5) && pyTruthy (.num 7)) = true) ∧
     ((lookupCol sampleProductCols9 "price").isSome ↔ (pyTruthy (.str "") &&
        pyTruthy (.num 1000) && pyTruthy (.num 5) && pyTruthy (.num 7)) = true) ∧
     ((lookupCol sampleProductCols9 "overall").isSome ↔ (pyTruthy (.str "") &&
        pyTruthy (.num 1000) && pyTruthy (.num 5) && pyTruthy (.num 7)) = true) ∧
     ((lookupCol sampleProductCols9 "total").isSome ↔ (pyTruthy (.str "") &&
        pyTruthy (.num 1000) && pyTruthy (.num 5) && pyTruthy (.num 7)) = true)) :=
  c10_category_columns_iff_truthy sampleProductPage (.str "") (.num 1000) (.num 5)
    (.num 7) (.str "Prod") sampleProductCols9 rfl

/-- The page sequence `range(start, start + n)` of the Python loops:
`pageRange 1 k` is the 1-indexed inclusive page list `[1, ..., k]`. -/
def pageRange (start : Nat) : Nat → List Nat
  | 0 => []
  | n + 1 => start :: pageRange (start + 1) n

theorem pageRange_length (start : Nat) : ∀ n : Nat, (pageRange start n).length = n := by
  intro n
  induction n generalizing start with
  | zero => rfl
  | succ n ih => simp [pageRange, ih]

/-- One iteration of a mode's page loop: fetch page `p` then flatten the
response.  The fetch oracle is total (the transport layer is an external
collaborator); flattening may raise. -/
def runPages (step : Nat → Except PyErr ColumnDict) :
    List Nat → List Nat × Except PyErr (List ColumnDict)
  | [] => ([], .ok [])
  | p :: ps =>
    match step p with
    | .error e => ([p], .error e)
    | .ok cols =>
      let rest := runPages step ps
      (p :: rest.1, match rest.2 with
        | .error e => .error e
        | .ok others => .ok (cols :: others))

/-- Shop mode's page loop (src/main.py lines 454-459): for every page in
`range(1, pages + 1)`, fetch and `parse_shop`, accumulating the per-page
column dictionaries in page order.  The first component is the trace of
fetch calls actually issued. -/
def shopModeRun (fetch : Nat → Json) (k : Nat) :
    List Nat × Except PyErr (List ColumnDict) :=
  runPages (fun p => parse_shop (fetch p)) (pageRange 1 k)

/-- Product mode's per-page step (src/main.py line 508).  The source calls
`parse_product(data)` with a single argument, but `parse_product` declares
`location`, `price`, `overall` and `total` as required positional parameters
with no defaults, so in Python this call raises `TypeError` before the
function body runs; the fetch for the page has already been issued. -/
def productStep (fetch : Nat → Json) (p : Nat) : Except PyErr ColumnDict :=
  let _data := fetch p
  .error .typeError

/-- Product mode's page loop (src/main.py lines 502-509). -/
def productModeRun (fetch : Nat → Json) (k : Nat) :
    List Nat × Except PyErr (List ColumnDict) :=
  runPages (productStep fetch) (pageRange 1 k)

/-- A perfectly well-formed product-reviews response for every page. -/
def goodProductFetch : Nat → Json := fun _ => sampleProductPage

/-- Claim C3 evaluated at its failing input: in product mode with
`pageCount = 2` and well-formed responses on every page, the loop issues
only one fetch (page 1) and then aborts with a `TypeError`, because
`parse_product(data)` omits the four required positional arguments — the
claim's "exactly k fetch calls for pages 1..k" fails for product mode. -/
theorem c3_product_mode_crashes_on_first_page :
    productModeRun goodProductFetch 2 = ([1], .error .typeError) ∧
    shopModeRun (fun _ => sampleShopPage) 2 =
      ([1, 2], .ok [sampleShopCols, sampleShopCols]) :=
  ⟨rfl, rfl⟩

/-- Python `s.replace(old, new)` for single-character `old` and `new`:
replaces every occurrence of `old` with `new`. -/
def replaceChar (old new : Char) (s : List Char) : List Char :=
  s.map (fun c => if c = old then new else c)

/-- The normalization lambda of src/main.py lines 461-474 on a string's
characters: `x.replace("\n", " ").replace("\r", " ")`. -/
def pyNormalizeChars (s : List Char) : List Char :=
  replaceChar '\r' ' ' (replaceChar '\n' ' ' s)

/-- Per-character effect of the two chained replaces. -/
def normStep (c : Char) : Char :=
  if c = '\n' then ' ' else if c = '\r' then ' ' else c

/-- The cell-level normalization: strings are normalized, any non-string
(in particular a null reply) passes through unchanged, per the source's
`if isinstance(x, str)` guard. -/
def normalizeCell (x : Json) : Json :=
  match x with
  | .str s => .str ⟨pyNormalizeChars s.data⟩
  | x => x

/-- Normalization of the fully accumulated dataset: the source applies the
lambda to the "reviewText" and "replyText" columns only, elementwise. -/
def normalizeDataset (cols : ColumnDict) : ColumnDict :=
  cols.map (fun kv =>
    if kv.1 == "reviewText" || kv.1 == "replyText"
    then (kv.1, kv.2.map normalizeCell) else kv)

theorem normStep_of_replaces (c : Char) :
    (if (if c = '\n' then ' ' else c) = '\r' then ' ' else (if c = '\n' then ' ' else c)) =
      normStep c := by
  by_cases h1 : c = '\n'
  · simp [h1, normStep]
  · by_cases h2 : c = '\r' <;> simp [h1, h2, normStep]

theorem pyNormalizeChars_eq_map (s : List Char) :
    pyNormalizeChars s = s.map normStep := by
  unfold pyNormalizeChars replaceChar
  rw [List.map_map]
  apply List.map_congr_left
  intro c _
  exact normStep_of_replaces c

theorem normStep_idem (c : Char) : normStep (normStep c) = normStep c := by
  by_cases h1 : c = '\n'
  · simp [h1, normStep]
  · by_cases h2 : c = '\r' <;> simp [h1, h2, normStep]

theorem pyNormalizeChars_idem (s : List Char) :
    pyNormalizeChars (pyNormalizeChars s) = pyNormalizeChars s := by
  rw [pyNormalizeChars_eq_map, pyNormalizeChars_eq_map, List.map_map]
  apply List.map_congr_left
  intro c _
  exact normStep_idem c

theorem normalizeCell_idem (x : Json) :
    normalizeCell (normalizeCell x) = normalizeCell x := by
  cases x <;> simp [normalizeCell]
  case str s => exact congrArg String.mk (pyNormalizeChars_idem s.data)

theorem map_normalizeCell_idem (v : List Json) :
    (v.map normalizeCell).map normalizeCell = v.map normalizeCell := by
  rw [List.map_map]
  apply List.map_congr_left
  intro x _
  exact normalizeCell_idem x

theorem normalizeDataset_idem (cols : ColumnDict) :
    normalizeDataset (normalizeDataset cols) = normalizeDataset cols := by
  unfold normalizeDataset
  rw [List.map_map]
  apply List.map_congr_left
  intro kv _
  obtain ⟨k, v⟩ := kv
  by_cases hk : k = "reviewText" ∨ k = "replyText"
  · simp [hk, map_normalizeCell_idem v]
  · simp [hk]

/-- Claim C8 — text normalization: every embedded newline and carriage
return becomes a single space (character-wise map by `normStep`, which sends
each of the two characters to one space and fixes everything else);
normalization is idempotent at the character-list, cell and dataset level;
and a null cell passes through unchanged (distinct from the empty string). -/
theorem c8_normalization :
    (∀ s : List Char, pyNormalizeChars s = s.map normStep) ∧
    (normStep '\n' = ' ' ∧ normStep '\r' = ' ' ∧
      ∀ c : Char, c ≠ '\n' → c ≠ '\r' → normStep c = c) ∧
    (∀ s : List Char, pyNormalizeChars (pyNormalizeChars s) = pyNormalizeChars s) ∧
    (∀ x : Json, normalizeCell (normalizeCell x) = normalizeCell x) ∧
    (normalizeCell .null = .null ∧ (Json.null : Json) ≠ .str "") ∧
    (∀ cols : ColumnDict, normalizeDataset (normalizeDataset cols) = normalizeDataset cols) :=
  ⟨pyNormalizeChars_eq_map,
    ⟨rfl, rfl, fun c h1 h2 => by simp [normStep, h1, h2]⟩,
    pyNormalizeChars_idem, normalizeCell_idem, ⟨rfl, by simp⟩, normalizeDataset_idem⟩

/-- Witness for C8 at a concrete string: normalization maps the embedded
newline and carriage return of "a\nb\r" to spaces, and fixes 'x'. -/
theorem c8_normalization_witness :
    pyNormalizeChars ['a', '\n', 'b', '\r'] = ['a', '\n', 'b', '\r'].map normStep ∧
    normStep 'x' = 'x' :=
  ⟨c8_normalization.1 ['a', '\n', 'b', '\r'],
    c8_normalization.2.1.2.2 'x' (by decide) (by decide)⟩

/-- The product list of one category-search page:
`data[0]["data"]["CategoryProducts"]["data"]` (src/main.py line 572). -/
def catProducts (data : Json) : Except PyErr (List Json) := do
  let root ← getIdx data 0
  let d ← getKey root "data"
  let cp ← getKey d "CategoryProducts"
  asArr (← getKey cp "data")

/-- Number of products a category-search response carries (0 when the
response is malformed). -/
def numProducts (data : Json) : Nat :=
  match catProducts data with
  | .ok l => l.length
  | .error _ => 0

/-- One product of the category drill-down (src/main.py lines 574-594):
extract the ProductSummary's id and name, issue exactly one review fetch for
that id (`fetch_product(product_id)`, page defaulting to 1), then flatten
with the summary's location, price, rating and review count as broadcast
context.  The first component is the trace of review fetches issued. -/
def drillProduct (f : Json → Json) (product : Json) :
    List Json × Except PyErr ColumnDict :=
  match getKey product "id" with
  | .error e => ([], .error e)
  | .ok product_id =>
    match getKey product "name" with
    | .error e => ([], .error e)
    | .ok product_name =>
      let product_data := f product_id
      ([product_id], do
        let shop ← getKey product "shop"
        let location ← getKey shop "location"
        let price ← getKey product "priceInt"
        let overall ← getKey product "rating"
        let total ← getKey product "countReview"
        parse_product product_data location price overall total product_name)

/-- The inner loop over one category page's products.  A failing product
aborts the remainder of the loop (the uncaught exception propagates). -/
def drillPage (f : Json → Json) : List Json → List Json × Except PyErr (List ColumnDict)
  | [] => ([], .ok [])
  | q :: qs =>
    match drillProduct f q with
    | (tr, .error e) => (tr, .error e)
    | (tr, .ok cols) =>
      let rest := drillPage f qs
      (tr ++ rest.1, match rest.2 with
        | .error e => .error e
        | .ok xs => .ok (cols :: xs))

/-- The outer category-mode loop over a list of category-search pages
(src/main.py lines 569-594).  Returns the trace of category fetches, the
trace of review fetches, and the accumulated per-product column
dictionaries in page-then-search order. -/
def categoryGo (catFetch : Nat → Json) (f : Json → Json) :
    List Nat → List Nat × List Json × Except PyErr (List ColumnDict)
  | [] => ([], [], .ok [])
  | p :: ps =>
    match catProducts (catFetch p) with
    | .error e => ([p], [], .error e)
    | .ok products =>
      match drillPage f products with
      | (tr, .error e) => ([p], tr, .error e)
      | (tr, .ok cols) =>
        match categoryGo catFetch f ps with
        | (ctr, rtr, .error e) => (p :: ctr, tr ++ rtr, .error e)
        | (ctr, rtr, .ok xs) => (p :: ctr, tr ++ rtr, .ok (cols ++ xs))

/-- Category mode's run over `pageCount = k` pages. -/
def categoryRun (catFetch : Nat → Json) (f : Json → Json) (k : Nat) :
    List Nat × List Json × Except PyErr (List ColumnDict) :=
  categoryGo catFetch f (pageRange 1 k)

/-- All product identifiers appearing in the accumulated dataset. -/
def datasetProductIDs (out : List ColumnDict) : List Json :=
  (out.map (fun cols => (lookupCol cols "productID").getD [])).flatten

theorem parse_product_pid {data location price overall total name : Json}
    {cols : ColumnDict} {pid : Json}
    (h : parse_product data location price overall total name = .ok cols)
    (hpid : prodRespID data = .ok pid) :
    ∀ v ∈ (lookupCol cols "productID").getD [], v = pid := by
  obtain ⟨resp, ys, pid0, shopObj, sn, ids, rids, rnames, rats, rtxts, reptxts,
    h1, h2, h5, _, _, _, _, _, _, _, _, hbr⟩ := parse_product_ok h
  unfold prodRespID at hpid
  rw [h1] at hpid
  simp only [ok_bind] at hpid
  rw [h5, Except.ok.injEq] at hpid
  subst hpid
  rcases hbr with ⟨_, rfl⟩ | ⟨_, rfl⟩ <;>
    simp [lookupCol, lookupStr]

theorem drillProduct_ok {f : Json → Json} {q : Json} {tr : List Json} {cols : ColumnDict}
    (h : drillProduct f q = (tr, .ok cols)) :
    ∃ v nm shop loc pr ov tot,
      getKey q "id" = .ok v ∧ tr = [v] ∧ getKey q "name" = .ok nm ∧
      getKey q "shop" = .ok shop ∧ getKey shop "location" = .ok loc ∧
      getKey q "priceInt" = .ok pr ∧ getKey q "rating" = .ok ov ∧
      getKey q "countReview" = .ok tot ∧
      parse_product (f v) loc pr ov tot nm = .ok cols := by
  unfold drillProduct at h
  cases h1 : getKey q "id" with
  | error e => rw [h1] at h; simp [Prod.mk.injEq] at h
  | ok v =>
    rw [h1] at h
    cases h2 : getKey q "name" with
    | error e => rw [h2] at h; simp [Prod.mk.injEq] at h
    | ok nm =>
      rw [h2] at h
      rw [Prod.mk.injEq] at h
      obtain ⟨htr, hrest⟩ := h
      simp only [bind_ok_iff] at hrest
      obtain ⟨shop, h3, loc, h4, pr, h5, ov, h6, tot, h7, h8⟩ := hrest
      exact ⟨v, nm, shop, loc, pr, ov, tot, rfl, htr.symm, rfl, h3, h4, h5, h6, h7, h8⟩

theorem drillPage_ok {f : Json → Json} : ∀ {ps tr : List Json} {out : List ColumnDict},
    drillPage f ps = (tr, .ok out) →
    tr.length = ps.length ∧
    (∀ v ∈ tr, ∃ q ∈ ps, getKey q "id" = .ok v) ∧
    (∀ cols ∈ out, ∃ q ∈ ps, ∃ v, getKey q "id" = .ok v ∧ v ∈ tr ∧
      drillProduct f q = ([v], .ok cols)) := by
  intro ps
  induction ps with
  | nil =>
    intro tr out h
    unfold drillPage at h
    rw [Prod.mk.injEq] at h
    obtain ⟨h1, h2⟩ := h
    simp only [Except.ok.injEq] at h2
    subst h1
    subst h2
    simp
  | cons q qs ih =>
    intro tr out h
    unfold drillPage at h
    rcases hq : drillProduct f q with ⟨tr0, r0⟩
    rw [hq] at h
    cases r0 with
    | error e => simp [Prod.mk.injEq] at h
    | ok cols0 =>
      rcases hrest : drillPage f qs with ⟨tr1, r1⟩
      rw [hrest] at h
      cases r1 with
      | error e => simp [Prod.mk.injEq] at h
      | ok out1 =>
        simp only [Prod.mk.injEq, Except.ok.injEq] at h
        obtain ⟨htr, hout⟩ := h
        subst htr
        subst hout
        obtain ⟨hlen, hmem, hcols⟩ := ih hrest
        obtain ⟨v, nm, shop, loc, pr, ov, tot, hid, htr0, _⟩ := drillProduct_ok hq
        subst htr0
        refine ⟨by simp [hlen], ?_, ?_⟩
        · intro w hw
          rcases List.mem_append.1 hw with hw | hw
          · rcases List.mem_singleton.1 hw with rfl
            exact ⟨q, List.mem_cons_self _ _, hid⟩
          · obtain ⟨q2, hq2, hid2⟩ := hmem w hw
            exact ⟨q2, List.mem_cons_of_mem _ hq2, hid2⟩
        · intro cols hc
          rcases List.mem_cons.1 hc with rfl | hc
          · exact ⟨q, List.mem_cons_self _ _, v, hid, by simp, hq⟩
          · obtain ⟨q2, hq2, w, hid2, hw, hdp⟩ := hcols cols hc
            exact ⟨q2, List.mem_cons_of_mem _ hq2, w, hid2, by simp [hw], hdp⟩

theorem listSum_le (l : List Nat) (m : Nat) (h : ∀ x ∈ l, x ≤ m) :
    l.sum ≤ l.length * m := by
  induction l with
  | nil => simp
  | cons x xs ih =>
    have hx := h x (List.mem_cons_self _ _)
    have hxs := ih (fun y hy => h y (List.mem_cons_of_mem _ hy))
    calc (x :: xs).sum = x + xs.sum := by simp
    _ ≤ m + xs.length * m := Nat.add_le_add hx hxs
    _ = (x :: xs).length * m := by simp [Nat.succ_mul, Nat.add_comm]

theorem categoryGo_ok {catFetch : Nat → Json} {f : Json → Json} :
    ∀ {L ctr : List Nat} {rtr : List Json} {out : List ColumnDict},
    categoryGo catFetch f L = (ctr, rtr, .ok out) →
    ctr = L ∧
    rtr.length = (L.map (fun p => numProducts (catFetch p))).sum ∧
    (∀ v ∈ rtr, ∃ p ∈ L, ∃ prods, catProducts (catFetch p) = .ok prods ∧
      ∃ q ∈ prods, getKey q "id" = .ok v) ∧
    (∀ cols ∈ out, ∃ p ∈ L, ∃ prods, catProducts (catFetch p) = .ok prods ∧
      ∃ q ∈ prods, ∃ v, getKey q "id" = .ok v ∧ v ∈ rtr ∧
        drillProduct f q = ([v], .ok cols)) := by
  intro L
  induction L with
  | nil =>
    intro ctr rtr out h
    unfold categoryGo at h
    simp only [Prod.mk.injEq, Except.ok.injEq] at h
    obtain ⟨h1, h2, h3⟩ := h
    subst h1
    subst h2
    subst h3
    simp
  | cons p ps ih =>
    intro ctr rtr out h
    unfold categoryGo at h
    split at h
    · simp [Prod.mk.injEq] at h
    · rename_i products hcat
      split at h
      · simp [Prod.mk.injEq] at h
      · rename_i tr0 cols0 hdp
        split at h
        · simp [Prod.mk.injEq] at h
        · rename_i ctr1 rtr1 out1 hrest
          simp only [Prod.mk.injEq, Except.ok.injEq] at h
          obtain ⟨hctr, hrtr, hout⟩ := h
          subst hctr
          subst hrtr
          subst hout
          obtain ⟨ihctr, ihlen, ihmem, ihcols⟩ := ih hrest
          obtain ⟨hplen, hpmem, hpcols⟩ := drillPage_ok hdp
          subst ihctr
          refine ⟨rfl, ?_, ?_, ?_⟩
          · simp only [List.length_append, List.map_cons, List.sum_cons, hplen, ihlen,
              numProducts, hcat]
          · intro v hv
            rcases List.mem_append.1 hv with hv | hv
            · obtain ⟨q, hq, hid⟩ := hpmem v hv
              exact ⟨p, List.mem_cons_self _ _, products, hcat, q, hq, hid⟩
            · obtain ⟨p2, hp2, prods, hprods, q, hq, hid⟩ := ihmem v hv
              exact ⟨p2, List.mem_cons_of_mem _ hp2, prods, hprods, q, hq, hid⟩
          · intro cols hc
            rcases List.mem_append.1 hc with hc | hc
            · obtain ⟨q, hq, v, hid, hvtr, hdq⟩ := hpcols cols hc
              exact ⟨p, List.mem_cons_self _ _, products, hcat, q, hq, v, hid,
                List.mem_append.2 (Or.inl hvtr), hdq⟩
            · obtain ⟨p2, hp2, prods, hprods, q, hq, v, hid, hvtr, hdq⟩ := ihcols cols hc
              exact ⟨p2, List.mem_cons_of_mem _ hp2, prods, hprods, q, hq, v, hid,
                List.mem_append.2 (Or.inr hvtr), hdq⟩

/-- Claim C4 — category drill-down shape: in a successful category run over
`k` search pages where every page carries at most `m` products and the
review service echoes the requested product identifier, (a) one category
fetch is issued per page, in order; (b) exactly one review fetch is issued
per discovered ProductSummary (their count is the sum of per-page product
counts), hence at most `k * m` review fetches; (c) every fetched identifier
comes from a product of the category-search results; (d) every column
dictionary of the dataset was flattened from one discovered ProductSummary
by `drillProduct` (which supplies that summary's name, location, price,
rating and review count as broadcast context); and (e) every product
identifier in the dataset is among the fetched (hence discovered)
identifiers. -/
theorem c4_category_drilldown (catFetch : Nat → Json) (f : Json → Json)
    (k m : Nat) (ctr : List Nat) (rtr : List Json) (out : List ColumnDict)
    (hrun : categoryRun catFetch f k = (ctr, rtr, .ok out))
    (hbound : ∀ p : Nat, numProducts (catFetch p) ≤ m)
    (hecho : ∀ j : Json, prodRespID (f j) = .ok j) :
    ctr = pageRange 1 k ∧
    rtr.length = ((pageRange 1 k).map (fun p => numProducts (catFetch p))).sum ∧
    rtr.length ≤ k * m ∧
    (∀ v ∈ rtr, ∃ p ∈ pageRange 1 k, ∃ prods, catProducts (catFetch p) = .ok prods ∧
      ∃ q ∈ prods, getKey q "id" = .ok v) ∧
    (∀ cols ∈ out, ∃ q v, getKey q "id" = .ok v ∧ v ∈ rtr ∧
      drillProduct f q = ([v], .ok cols)) ∧
    (∀ w ∈ datasetProductIDs out, w ∈ rtr) := by
  obtain ⟨hctr, hlen, hmem, hcols⟩ := categoryGo_ok hrun
  have hle : rtr.length ≤ k * m := by
    rw [hlen]
    have := listSum_le ((pageRange 1 k).map (fun p => numProducts (catFetch p))) m
      (by intro x hx
          rcases List.mem_map.1 hx with ⟨p, _, rfl⟩
          exact hbound p)
    simpa [List.length_map, pageRange_length] using this
  refine ⟨hctr, hlen, hle, hmem, ?_, ?_⟩
  · intro cols hc
    obtain ⟨p, _, prods, _, q, _, v, hid, hvtr, hdq⟩ := hcols cols hc
    exact ⟨q, v, hid, hvtr, hdq⟩
  · intro w hw
    unfold datasetProductIDs at hw
    rcases List.mem_flatten.1 hw with ⟨l, hl, hwl⟩
    rcases List.mem_map.1 hl with ⟨cols, hc, rfl⟩
    obtain ⟨p, _, prods, _, q, _, v, hid, hvtr, hdq⟩ := hcols cols hc
    obtain ⟨v2, nm, shop, loc, pr, ov, tot, hid2, htr2, _, _, _, _, _, _, hparse⟩ :=
      drillProduct_ok hdq
    have hv2 : v2 = v := by
      simp only [List.cons.injEq, and_true] at htr2
      exact htr2.symm
    subst hv2
    have := parse_product_pid hparse (hecho v2)
    have hwv := this w hwl
    subst hwv
    exact hvtr

/-- A ProductSummary as returned by the category search. -/
def sampleProduct : Json := .obj [("id", .str "p9"), ("name", .str "Prod"),
  ("shop", .obj [("location", .str "Jakarta")]), ("priceInt", .num 1000),
  ("rating", .num 5), ("countReview", .num 7)]

/-- A category-search response carrying one ProductSummary. -/
def sampleCategoryPage : Json := .arr [.obj [("data", .obj
  [("CategoryProducts", .obj [("data", .arr [sampleProduct])])])]]

/-- A constant category-fetch oracle. -/
def catFetchConst : Nat → Json := fun _ => sampleCategoryPage

/-- A review-fetch oracle that echoes the requested product identifier in the
response's page-level `productID`, as the upstream service does. -/
def echoProductFetch : Json → Json := fun j => .arr [.obj [("data", .obj
  [("productrevGetProductReviewList", .obj
    [("productID", j), ("list", .arr [sampleProductItem]),
     ("shop", .obj [("name", .str "Toko")])])])]]

/-- Witness for C4 at a one-page, one-product category run. -/
theorem c4_category_drilldown_witness :
    [1] = pageRange 1 1 ∧
    ([Json.str "p9"] : List Json).length =
      ((pageRange 1 1).map (fun p => numProducts (catFetchConst p))).sum ∧
    ([Json.str "p9"] : List Json).length ≤ 1 * 1 ∧
    (∀ v ∈ ([Json.str "p9"] : List Json), ∃ p ∈ pageRange 1 1, ∃ prods,
      catProducts (catFetchConst p) = .ok prods ∧
      ∃ q ∈ prods, getKey q "id" = .ok v) ∧
    (∀ cols ∈ [sampleProductCols13], ∃ q v, getKey q "id" = .ok v ∧
      v ∈ ([Json.str "p9"] : List Json) ∧
      drillProduct echoProductFetch q = ([v], .ok cols)) ∧
    (∀ w ∈ datasetProductIDs [sampleProductCols13], w ∈ ([Json.str "p9"] : List Json)) :=
  c4_category_drilldown catFetchConst echoProductFetch 1 1 [1] [.str "p9"]
    [sampleProductCols13] rfl (fun _ => Nat.le_refl 1) (fun _ => rfl)

theorem drillPage_ok_each {f : Json → Json} : ∀ {ps tr : List Json} {out : List ColumnDict},
    drillPage f ps = (tr, .ok out) →
    ∀ q ∈ ps, ∃ v cols, drillProduct f q = ([v], .ok cols) := by
  intro ps
  induction ps with
  | nil => intro tr out _ q hq; simp at hq
  | cons q qs ih =>
    intro tr out h r hr
    unfold drillPage at h
    rcases hq2 : drillProduct f q with ⟨tr0, r0⟩
    rw [hq2] at h
    cases r0 with
    | error e => simp [Prod.mk.injEq] at h
    | ok cols0 =>
      rcases hrest : drillPage f qs with ⟨tr1, r1⟩
      rw [hrest] at h
      cases r1 with
      | error e => simp [Prod.mk.injEq] at h
      | ok out1 =>
        rcases List.mem_cons.1 hr with rfl | hr
        · obtain ⟨v, nm, shop, loc, pr, ov, tot, hid, htr0, _⟩ := drillProduct_ok hq2
          subst htr0
          exact ⟨v, cols0, hq2⟩
        · exact ih hrest r hr

theorem categoryGo_ok_each {catFetch : Nat → Json} {f : Json → Json} :
    ∀ {L ctr : List Nat} {rtr : List Json} {out : List ColumnDict},
    categoryGo catFetch f L = (ctr, rtr, .ok out) →
    ∀ p ∈ L, ∃ prods, catProducts (catFetch p) = .ok prods ∧
      ∀ q ∈ prods, ∃ v cols, drillProduct f q = ([v], .ok cols) := by
  intro L
  induction L with
  | nil => intro ctr rtr out _ p hp; simp at hp
  | cons p ps ih =>
    intro ctr rtr out h r hr
    unfold categoryGo at h
    split at h
    · simp [Prod.mk.injEq] at h
    · rename_i products hcat
      split at h
      · simp [Prod.mk.injEq] at h
      · rename_i tr0 cols0 hdp
        split at h
        · simp [Prod.mk.injEq] at h
        · rename_i ctr1 rtr1 out1 hrest
          rcases List.mem_cons.1 hr with rfl | hr
          · exact ⟨products, hcat, drillPage_ok_each hdp⟩
          · exact ih hrest r hr

/-- ProductSummary whose review fetch will fail. -/
def productA : Json := .obj [("id", .str "A"), ("name", .str "PA"),
  ("shop", .obj [("location", .str "X")]), ("priceInt", .num 10),
  ("rating", .num 4), ("countReview", .num 3)]

/-- ProductSummary whose review fetch would succeed. -/
def productB : Json := .obj [("id", .str "B"), ("name", .str "PB"),
  ("shop", .obj [("location", .str "Y")]), ("priceInt", .num 20),
  ("rating", .num 5), ("countReview", .num 6)]

/-- A category-search response carrying the failing product followed by a
healthy one. -/
def c5CategoryPage : Json := .arr [.obj [("data", .obj
  [("CategoryProducts", .obj [("data", .arr [productA, productB])])])]]

/-- Review-fetch oracle that returns a malformed response for product "A"
and a well-formed echoing response for everything else. -/
def c5ProductFetch : Json → Json := fun j =>
  match j with
  | .str "A" => .null
  | j => .arr [.obj [("data", .obj
      [("productrevGetProductReviewList", .obj
        [("productID", j), ("list", .arr [sampleProductItem]),
         ("shop", .obj [("name", .str "Toko")])])])]]

/-- Counterexample to claim C5 as stated: when the first product's review
fetch fails on a two-product category page, the source aborts the whole run
with an error — the second product is never fetched (the review-fetch trace
stops at "A"), no records are produced, and no skip count exists. -/
theorem c5_partial_coverage_counterexample :
    categoryRun (fun _ => c5CategoryPage) c5ProductFetch 1 =
      ([1], [Json.str "A"], .error .typeError) := rfl

/-- Claim C5 as amended: the category run is all-or-nothing — it yields an
accumulated dataset only if every discovered product's review fetch and
flatten succeeded; any single failure aborts the run with an error (see the
counterexample), rather than skipping the product and surfacing a count. -/
theorem c5_category_run_all_or_nothing :
    ∀ (catFetch : Nat → Json) (f : Json → Json) (k : Nat) (ctr : List Nat)
      (rtr : List Json) (out : List ColumnDict),
      categoryRun catFetch f k = (ctr, rtr, .ok out) →
      ∀ p ∈ pageRange 1 k, ∃ prods, catProducts (catFetch p) = .ok prods ∧
        ∀ q ∈ prods, ∃ v cols, drillProduct f q = ([v], .ok cols) :=
  fun _ _ _ _ _ _ h => categoryGo_ok_each h

/-- Witness for the amended C5 at the successful one-page run. -/
theorem c5_category_run_all_or_nothing_witness :
    ∃ prods, catProducts (catFetchConst 1) = .ok prods ∧
      ∀ q ∈ prods, ∃ v cols, drillProduct echoProductFetch q = ([v], .ok cols) :=
  c5_category_run_all_or_nothing catFetchConst echoProductFetch 1 [1] [.str "p9"]
    [sampleProductCols13] rfl 1 (by simp [pageRange])

def isDigitCh (c : Char) : Bool := 48 ≤ c.toNat && c.toNat ≤ 57

def digitsToNat : List Char → Nat → Option Nat
  | [], acc => some acc
  | c :: cs, acc =>
    if isDigitCh c then digitsToNat cs (acc * 10 + (c.toNat - 48)) else none

def isSpaceCh (c : Char) : Bool := c == ' ' || c == '\t' || c == '\n' || c == '\r'

def dropSpaces : List Char → List Char
  | [] => []
  | c :: cs => if isSpaceCh c then dropSpaces cs else c :: cs

def pyTrim (s : List Char) : List Char :=
  (dropSpaces (dropSpaces s).reverse).reverse

/-- Model of Python `int(str)`: optional surrounding whitespace, optional
sign, one or more ASCII digits; anything else raises `ValueError`. -/
def pyInt (s : String) : Except PyErr Int :=
  match pyTrim s.data with
  | [] => .error .valueError
  | '-' :: cs =>
    match cs with
    | [] => .error .valueError
    | _ =>
      match digitsToNat cs 0 with
      | some n => .ok (-(n : Int))
      | none => .error .valueError
  | '+' :: cs =>
    match cs with
    | [] => .error .valueError
    | _ =>
      match digitsToNat cs 0 with
      | some n => .ok (n : Int)
      | none => .error .valueError
  | cs =>
    match digitsToNat cs 0 with
    | some n => .ok (n : Int)
    | none => .error .valueError

example : pyInt "1" = .ok 1 := rfl
example : pyInt " 42 " = .ok 42 := rfl
example : pyInt "abc" = .error .valueError := rfl
example : pyInt "" = .error .valueError := rfl

/-- Outcome of one `__main__()` menu iteration.  `.crashed` models an
uncaught exception terminating the process; `.recovered` models a caught
`ValueError` (the message is printed, the function returns and the outer
`while` loop shows the menu again) with nothing written; `.completed`
models a run that reached `to_csv`; `.menuFallthrough` models an unmatched
numeric choice (no case body runs). -/
inductive Outcome where
  | exited
  | crashed (e : PyErr)
  | recovered (msg : String)
  | completed (out : List ColumnDict)
  | menuFallthrough

/-- The message printed by the shop and product cases on a caught
`ValueError` (src/main.py lines 481 and 531). -/
def invalidShopIDMsg : String := "Invalid input. Please enter a valid Shop ID."

/-- The message printed by the category case on a caught `ValueError`
(src/main.py line 618). -/
def invalidCategoryIDMsg : String := "Invalid input. Please enter a valid Category ID."

/-- Case 1 of `__main__` (src/main.py lines 434-481): read a shop id and a
page count inside `try`, run the page loop, normalize, save; only
`ValueError` is caught, and the caught path writes nothing. -/
def shopCase (fS : String → Nat → Json) (inputs : List String) : Outcome :=
  match inputs with
  | [] => .crashed .eofError
  | shop_id :: rest =>
    match rest with
    | [] => .crashed .eofError
    | pagesStr :: _ =>
      match pyInt pagesStr with
      | .error .valueError => .recovered invalidShopIDMsg
      | .error e => .crashed e
      | .ok n =>
        match shopModeRun (fun p => fS shop_id p) n.toNat with
        | (_, .error .valueError) => .recovered invalidShopIDMsg
        | (_, .error e) => .crashed e
        | (_, .ok outs) => .completed (outs.map normalizeDataset)

/-- Case 2 of `__main__` (src/main.py lines 482-531), analogous to the shop
case but running the product-mode loop. -/
def productCase (fP : Json → Nat → Json) (inputs : List String) : Outcome :=
  match inputs with
  | [] => .crashed .eofError
  | product_id :: rest =>
    match rest with
    | [] => .crashed .eofError
    | pagesStr :: _ =>
      match pyInt pagesStr with
      | .error .valueError => .recovered invalidShopIDMsg
      | .error e => .crashed e
      | .ok n =>
        match productModeRun (fun p => fP (.str product_id) p) n.toNat with
        | (_, .error .valueError) => .recovered invalidShopIDMsg
        | (_, .error e) => .crashed e
        | (_, .ok outs) => .completed (outs.map normalizeDataset)

/-- The categories list of the categories-listing response:
`data[0]["data"]["categoryAllListLite"]["categories"]` (line 536). -/
def categoriesOf (data : Json) : Except PyErr (List Json) := do
  let root ← getIdx data 0
  let d ← getKey root "data"
  let lite ← getKey d "categoryAllListLite"
  asArr (← getKey lite "categories")

/-- The comprehension `[c for c in categories if c["id"] == category_id]`:
every element's "id" is looked up (a missing key raises), and a non-numeric
id simply compares unequal. -/
def catMatches : List Json → Int → Except PyErr (List Json)
  | [], _ => .ok []
  | c :: cs, cid => do
    let v ← getKey c "id"
    let rest ← catMatches cs cid
    match v with
    | .num n => if n == cid then return (c :: rest) else return rest
    | _ => return rest

/-- The selection `[...][0]` (line 545): `IndexError` when nothing matched. -/
def selectCategory (cats : List Json) (cid : Int) : Except PyErr Json := do
  let ms ← catMatches cats cid
  match ms with
  | [] => .error .indexError
  | c :: _ => .ok c

/-- Case 3 of `__main__` (src/main.py lines 532-618): list categories, read
a category id and page count inside `try`, run the drill-down, normalize,
save under the category's name; only `ValueError` is caught. -/
def categoryCase (fP : Json → Nat → Json) (fCats : Json) (fCat : Int → Nat → Json)
    (inputs : List String) : Outcome :=
  match categoriesOf fCats with
  | .error .valueError => .recovered invalidCategoryIDMsg
  | .error e => .crashed e
  | .ok categories =>
    match inputs with
    | [] => .crashed .eofError
    | cidStr :: rest =>
      match pyInt cidStr with
      | .error .valueError => .recovered invalidCategoryIDMsg
      | .error e => .crashed e
      | .ok cid =>
        match selectCategory categories cid with
        | .error .valueError => .recovered invalidCategoryIDMsg
        | .error e => .crashed e
        | .ok category =>
          match rest with
          | [] => .crashed .eofError
          | pagesStr :: _ =>
            match pyInt pagesStr with
            | .error .valueError => .recovered invalidCategoryIDMsg
            | .error e => .crashed e
            | .ok n =>
              match categoryRun (fun p => fCat cid p) (fun j => fP j 1) n.toNat with
              | (_, _, .error .valueError) => .recovered invalidCategoryIDMsg
              | (_, _, .error e) => .crashed e
              | (_, _, .ok out) =>
                match getKey category "name" with
                | .error .valueError => .recovered invalidCategoryIDMsg
                | .error e => .crashed e
                | .ok _ => .completed (out.map normalizeDataset)

/-- One iteration of `__main__` (src/main.py lines 424-620).  The menu
choice is read by `int(input())` at line 431, outside every `try` block, so
a non-numeric choice raises an uncaught `ValueError`. -/
def mainStep (fS : String → Nat → Json) (fP : Json → Nat → Json)
    (fCats : Json) (fCat : Int → Nat → Json) (inputs : List String) : Outcome :=
  match inputs with
  | [] => .crashed .eofError
  | choiceStr :: rest =>
    match pyInt choiceStr with
    | .error e => .crashed e
    | .ok c =>
      if c == 1 then shopCase fS rest
      else if c == 2 then productCase fP rest
      else if c == 3 then categoryCase fP fCats fCat rest
      else if c == 9 then .exited
      else .menuFallthrough

/-- Counterexample to claim C9 as stated: a non-numeric menu choice is read
outside every `try` block, so instead of returning to the mode menu the
uncaught `ValueError` terminates the process. -/
theorem c9_menu_choice_counterexample :
    mainStep (fun _ _ => .null) (fun _ _ => .null) .null (fun _ _ => .null) ["x"] =
      .crashed .valueError := rfl

/-- Claim C9 as amended: a non-numeric page count entered inside the shop or
product case is recovered locally — the mode attempt is abandoned with the
"Invalid input" message, nothing is written and control returns to the mode
menu — but a non-numeric menu choice is read outside every `try` block and
crashes the process with the uncaught `ValueError`. -/
theorem c9_operator_input_recovery :
    (∀ (fS : String → Nat → Json) (fP : Json → Nat → Json) (fCats : Json)
      (fCat : Int → Nat → Json) (choiceStr : String) (rest : List String) (e : PyErr),
      pyInt choiceStr = .error e →
      mainStep fS fP fCats fCat (choiceStr :: rest) = .crashed e) ∧
    (∀ (fS : String → Nat → Json) (fP : Json → Nat → Json) (fCats : Json)
      (fCat : Int → Nat → Json) (sid pagesStr : String) (rest : List String),
      pyInt pagesStr = .error .valueError →
      mainStep fS fP fCats fCat ("1" :: sid :: pagesStr :: rest) =
        .recovered invalidShopIDMsg) ∧
    (∀ (fS : String → Nat → Json) (fP : Json → Nat → Json) (fCats : Json)
      (fCat : Int → Nat → Json) (pid pagesStr : String) (rest : List String),
      pyInt pagesStr = .error .valueError →
      mainStep fS fP fCats fCat ("2" :: pid :: pagesStr :: rest) =
        .recovered invalidShopIDMsg) := by
  refine ⟨?_, ?_, ?_⟩
  · intro fS fP fCats fCat choiceStr rest e h
    unfold mainStep
    dsimp only
    rw [h]
  · intro fS fP fCats fCat sid pagesStr rest h
    show shopCase fS (sid :: pagesStr :: rest) = .recovered invalidShopIDMsg
    unfold shopCase
    dsimp only
    rw [h]
  · intro fS fP fCats fCat pid pagesStr rest h
    show productCase fP (pid :: pagesStr :: rest) = .recovered invalidShopIDMsg
    unfold productCase
    dsimp only
    rw [h]

/-- Witness for the amended C9: the non-numeric choice "x" crashes, while a
non-numeric page count "abc" in shop or product mode recovers to the menu. -/
theorem c9_operator_input_recovery_witness :
    mainStep (fun _ _ => Json.null) (fun _ _ => .null) .null (fun _ _ => .null)
      ["abc"] = .crashed .valueError ∧
    mainStep (fun _ _ => Json.null) (fun _ _ => .null) .null (fun _ _ => .null)
      ["1", "123", "abc"] = .recovered invalidShopIDMsg ∧
    mainStep (fun _ _ => Json.null) (fun _ _ => .null) .null (fun _ _ => .null)
      ["2", "123", "abc"] = .recovered invalidShopIDMsg :=
  ⟨c9_operator_input_recovery.1 _ _ _ _ "abc" [] .valueError rfl,
    c9_operator_input_recovery.2.1 _ _ _ _ "123" "abc" [] rfl,
    c9_operator_input_recovery.2.2 _ _ _ _ "123" "abc" [] rfl⟩
